import Mathlib

/-!
Verification of the TripChain road-bump detection core against its
natural-language specification.

The development shallowly embeds the algorithmic parts of the repository:
  * `haversineMeters`, `getAutoParams`, `pathAppend`, `handlePos`,
    `segWalkGo` / `addRedSegmentNear`, `classifyStep` / `handler`
    come from the auto-tune frontend (`src/unnamed/part_000`);
  * `onMotionCond` comes from the jerk-based motion handler in
    `src/backend/index.js` (second embedded document);
  * `pushBump`, `heatInit`, `mapSet`, `relayDispatch` come from the relay
    server (`src/backend/index.js`, first document).

JavaScript numbers are modelled as exact rationals (ℚ) where the code only
compares and adds them, and as reals (ℝ) where it applies `Math.sqrt`,
trigonometry (`haversineMeters`) or division whose result is only stored.
Timestamps (`Date.now()` milliseconds) are modelled as integers (ℤ).
Floating-point rounding, string formatting (`toFixed`) and UI state that no
claim touches are not modelled.
-/

/-- Tuning parameters, `{cooldown, sensitivity}` as returned by
`getAutoParams` (part_000 lines 50–55). -/
structure TuningParams where
  cooldown : ℚ
  sensitivity : ℚ
deriving DecidableEq

/-- part_000 lines 50–55:
`getAutoParams(speedKmh)` — four speed brackets. -/
def getAutoParams (speedKmh : ℚ) : TuningParams :=
  if speedKmh < 5 then ⟨2500, 10⟩
  else if speedKmh < 25 then ⟨1800, 12⟩
  else if speedKmh < 60 then ⟨1200, 14⟩
  else ⟨800, 16⟩

/-- part_000 lines 38–47: haversine great-circle distance in meters,
Earth radius 6,371,000 m. -/
noncomputable def haversineMeters (lat1 lon1 lat2 lon2 : ℝ) : ℝ :=
  let R : ℝ := 6371000
  let toRad : ℝ → ℝ := fun d => d * Real.pi / 180
  let dLat := toRad (lat2 - lat1)
  let dLon := toRad (lon2 - lon1)
  let a := Real.sin (dLat / 2) ^ 2 +
    Real.cos (toRad lat1) * Real.cos (toRad lat2) * Real.sin (dLon / 2) ^ 2
  2 * R * Real.arcsin (Real.sqrt a)

/-- part_000 lines 139–147, the `setPath` updater inside `handlePos`:
append `next` unless it equals the last stored point; after appending,
drop the oldest point (`updated.shift()`) if the length exceeds 10,000. -/
def pathAppend (prev : List (ℚ × ℚ)) (next : ℚ × ℚ) : List (ℚ × ℚ) :=
  if prev.getLast? ≠ some next then
    let updated := prev ++ [next]
    if 10000 < updated.length then updated.tail else updated
  else prev

/-- part_000 line 150: `typeof speed === "number" && speed >= 0 ? speed : null`.
A `none` result means the fix carries no usable (non-negative) native speed. -/
def nativeSpeed (speed : Option ℚ) : Option ℚ :=
  match speed with
  | some s => if 0 ≤ s then some s else none
  | none => none

/-- A raw position fix as consumed by `handlePos`:
`pos.coords.latitude/longitude/speed` plus the `Date.now()` timestamp. -/
structure RawFix where
  lat : ℚ
  lon : ℚ
  speed : Option ℚ
  ts : ℤ
deriving DecidableEq

/-- The geo-tracking state held by the component: `position`, `speedKmh`,
`path` and `lastGeoRef.current` (part_000 lines 81–108). -/
structure GeoState where
  position : ℚ × ℚ
  speedKmh : ℝ
  path : List (ℚ × ℚ)
  lastGeo : Option (ℚ × ℚ × ℤ)

/-- Initial geo state: Delhi default position, speed 0, empty path,
`lastGeoRef.current = null` (part_000 lines 81–108). -/
noncomputable def geoInit : GeoState :=
  { position := (286139/10000, 77209/1000), speedKmh := 0, path := [], lastGeo := none }

/-- part_000 lines 131–168, `handlePos`: append to the path (deduplicated,
capped), prefer a non-negative native speed, otherwise derive speed from the
haversine distance to the previous fix when the elapsed time (in seconds) lies
strictly in (0.5, 15); clamp to [0, 180] km/h; always record the latest fix.
`Number.isFinite` is identically true in the real-number model. -/
noncomputable def handlePos (st : GeoState) (f : RawFix) : GeoState :=
  let next := (f.lat, f.lon)
  let path2 := pathAppend st.path next
  let spdMs : Option ℝ :=
    match nativeSpeed f.speed with
    | some s => some (s : ℝ)
    | none =>
      match st.lastGeo with
      | some g =>
        let dt : ℚ := ((f.ts - g.2.2 : ℤ) : ℚ) / 1000
        if 1/2 < dt ∧ dt < 15 then
          some (haversineMeters (g.1 : ℝ) (g.2.1 : ℝ) (f.lat : ℝ) (f.lon : ℝ) / (dt : ℝ))
        else none
      | none => none
  let speedKmh2 : ℝ :=
    match spdMs with
    | some s => max 0 (min 180 (s * 3.6))
    | none => st.speedKmh
  { position := next, speedKmh := speedKmh2, path := path2,
    lastGeo := some (f.lat, f.lon, f.ts) }

/-- part_000 lines 199–205, the backward walk of `addRedSegmentNear`:
`for (i = path.length - 1; i > 0; i--)` — prepend `path[i]`, accumulate the
haversine distance from `path[i]` to `path[i-1]`, break once the accumulator
reaches 30 m. Returns the built segment and the accumulator. -/
noncomputable def segWalkGo (path : List (ℚ × ℚ)) :
    ℕ → List (ℚ × ℚ) → ℝ → List (ℚ × ℚ) × ℝ
  | 0, seg, acc => (seg, acc)
  | i + 1, seg, acc =>
    let a := path.getD (i + 1) (0, 0)
    let b := path.getD i (0, 0)
    let acc2 := acc + haversineMeters (a.1 : ℝ) (a.2 : ℝ) (b.1 : ℝ) (b.2 : ℝ)
    if 30 ≤ acc2 then (a :: seg, acc2) else segWalkGo path i (a :: seg) acc2

/-- part_000 lines 194–207, `addRedSegmentNear`: requires at least two path
points; seeds the segment with the event location `[centerLat, centerLon]`,
walks the path backward (`segWalkGo`), and appends the segment to
`redSegments` when it has at least two points. -/
noncomputable def addRedSegmentNear (path : List (ℚ × ℚ)) (center : ℚ × ℚ)
    (redSegments : List (List (ℚ × ℚ))) : List (List (ℚ × ℚ)) :=
  if path.length < 2 then redSegments
  else
    let seg := (segWalkGo path (path.length - 1) [center] 0).1
    if 2 ≤ seg.length then redSegments ++ [seg] else redSegments

/-- The haversine distance accumulated by one backward step of the walk:
from `path[i+1]` to `path[i]`. -/
noncomputable def stepDist (path : List (ℚ × ℚ)) (i : ℕ) : ℝ :=
  haversineMeters ((path.getD (i + 1) (0, 0)).1 : ℝ) ((path.getD (i + 1) (0, 0)).2 : ℝ)
    ((path.getD i (0, 0)).1 : ℝ) ((path.getD i (0, 0)).2 : ℝ)

/-- The threshold/cooldown gate of the bump classifier, abstracted over the
conditioned metric. part_000 lines 229–233 and frontend App.js line 121:
`if (linear > sensitivity && now - lastBumpRef.current > cooldown)
  lastBumpRef.current = now` and an event fires. Both comparisons are strict. -/
def classifyStep (sensitivity cooldown : ℚ) (lastBump : ℤ) (metric : ℚ)
    (now : ℤ) : ℤ × Bool :=
  if sensitivity < metric ∧ cooldown < ((now - lastBump : ℤ) : ℚ) then (now, true)
  else (lastBump, false)

/-- Run `classifyStep` over a list of (metric, time) samples, starting from
last-fire timestamp `lb` (`lastBumpRef = useRef(0)` gives `lb = 0` at mount),
collecting the fired flag of every sample. -/
def runFlags (sensitivity cooldown : ℚ) (lb : ℤ) (samples : List (ℚ × ℤ)) :
    List Bool :=
  (samples.foldl
    (fun acc sm =>
      let r := classifyStep sensitivity cooldown acc.1 sm.1 sm.2
      (r.1, acc.2 ++ [r.2]))
    (lb, [])).2

/-- part_000 line 246: `Math.max(16, effectiveSensitivity + 3)`, the "high"
severity threshold for segment highlighting. -/
def highThresholdFor (sensitivity : ℚ) : ℚ := max 16 (sensitivity + 3)

/-- A locally produced bump record (part_000 lines 235–241); `accel` keeps the
numeric value of `linear` (`toFixed` string formatting is not modelled). -/
structure BumpUI where
  id : ℤ
  coords : ℚ × ℚ
  accel : ℝ
  speedKmh : ℚ

/-- Mutable state captured by the part_000 motion `handler`:
`lastBumpRef.current`, the `bumps` list (newest first) and `redSegments`. -/
structure AppState where
  lastBump : ℤ
  bumps : List BumpUI
  redSegments : List (List (ℚ × ℚ))

/-- part_000 lines 219–251, the auto-tune variant's motion `handler`:
condition the sample (`linear = |‖(x,y,z)‖ − 9.81|`), fire when the metric
exceeds the sensitivity and the cooldown has strictly elapsed, and on a fired
sample whose metric reaches `highThresholdFor` build a red segment.
`setAccel` (pure UI state) and the socket emission are not modelled here;
the emission's event name is `part000BumpEmitEvent`. -/
noncomputable def handler (effectiveSensitivity effectiveCooldown : ℚ)
    (position : ℚ × ℚ) (speedKmh : ℚ) (path : List (ℚ × ℚ)) (st : AppState)
    (x y z : ℝ) (now : ℤ) : AppState :=
  let total := Real.sqrt (x * x + y * y + z * z)
  let linear := |total - 9.81|
  if (effectiveSensitivity : ℝ) < linear ∧
      effectiveCooldown < ((now - st.lastBump : ℤ) : ℚ) then
    let bump : BumpUI := ⟨now, position, linear, speedKmh⟩
    { lastBump := now
      bumps := bump :: st.bumps
      redSegments :=
        if (highThresholdFor effectiveSensitivity : ℝ) ≤ linear then
          addRedSegmentNear path position st.redSegments
        else st.redSegments }
  else st

/-- State of the jerk-based signal conditioner in the enhanced flow
(backend file, second document, `onMotion`): high-pass state `hpState`,
previous raw sample `recentAccel`, previous filtered vector and timestamp
(`prev`). -/
structure MotionState where
  hp : ℝ × ℝ × ℝ
  recent : ℝ × ℝ × ℝ
  prevF : ℝ × ℝ × ℝ
  prevT : ℝ

/-- backend file (second document) `onMotion`, signal-conditioning part:
`hp[axis] = 0.8 * (hp[axis] + sample[axis] − recent[axis])`, then the jerk of
the filtered vector over `dt = (t − prev.t)/1000`, each axis guarded to 0 when
`dt ≤ 0`; the metric is the Euclidean norm of the jerk vector. Returns the
updated state and the metric. -/
noncomputable def onMotionCond (st : MotionState) (ax ay az t : ℝ) :
    MotionState × ℝ :=
  let hpx := 0.8 * (st.hp.1 + ax - st.recent.1)
  let hpy := 0.8 * (st.hp.2.1 + ay - st.recent.2.1)
  let hpz := 0.8 * (st.hp.2.2 + az - st.recent.2.2)
  let dt := (t - st.prevT) / 1000
  let jx := if 0 < dt then (hpx - st.prevF.1) / dt else 0
  let jy := if 0 < dt then (hpy - st.prevF.2.1) / dt else 0
  let jz := if 0 < dt then (hpz - st.prevF.2.2) / dt else 0
  let jerkMag := Real.sqrt (jx * jx + jy * jy + jz * jz)
  (⟨(hpx, hpy, hpz), (ax, ay, az), (hpx, hpy, hpz), t⟩, jerkMag)

/-- Payload of a `pos` publication: `{deviceId, lat, lng, speed, ts}`
(backend index.js line 26). -/
structure PosRecord where
  deviceId : String
  lat : ℚ
  lng : ℚ
  speed : ℚ
  ts : ℤ
deriving DecidableEq

/-- Payload of a `bump` publication: `{deviceId, lat, lng, score, ts}`
(backend index.js line 32). -/
structure BumpRecord where
  deviceId : String
  lat : ℚ
  lng : ℚ
  score : ℚ
  ts : ℤ
deriving DecidableEq

/-- A message on the wire: either a position or a bump payload. -/
inductive WireMsg where
  | posMsg (p : PosRecord)
  | bumpMsg (b : BumpRecord)
deriving DecidableEq

/-- `data.deviceId`, read duck-typed off whichever payload arrived. -/
def deviceIdOf : WireMsg → String
  | .posMsg p => p.deviceId
  | .bumpMsg b => b.deviceId

/-- JS `Map.set` on `livePositions`, modelled as insert-or-replace on an
association list (insertion order of the map is not modelled). -/
def mapSet (m : List (String × WireMsg)) (k : String) (v : WireMsg) :
    List (String × WireMsg) :=
  (k, v) :: m.filter (fun e => e.1 ≠ k)

/-- backend index.js lines 32–35: `bumps.push(b)` then
`if (bumps.length > 20000) bumps.splice(0, bumps.length - 20000)` —
append and keep only the most recent 20,000 records. -/
def pushBump {α : Type} (bumps : List α) (b : α) : List α :=
  let u := bumps ++ [b]
  if 20000 < u.length then u.drop (u.length - 20000) else u

/-- backend index.js line 22: `bumps.slice(-5000)` — the snapshot sent to a
newly connected client, i.e. the last at-most-5,000 retained records. -/
def heatInit {α : Type} (bumps : List α) : List α :=
  bumps.drop (bumps.length - 5000)

/-- The relay's in-memory store: the `bumps` array and the `livePositions`
map (backend index.js lines 18–19). -/
structure RelayState where
  bumps : List WireMsg
  livePositions : List (String × WireMsg)
deriving DecidableEq

/-- The relay's initial state: empty store. -/
def relayInit : RelayState := ⟨[], []⟩

/-- backend index.js lines 21–42: inbound message dispatch. The connection
handler registers listeners only for the event names `"pos"` and `"bump"`
(plus a no-op `"disconnect"`); any other event name matches no handler and is
dropped by socket.io. On `"pos"`: store under `data.deviceId` and
`socket.broadcast.emit` — deliver to every connected peer except the sender.
On `"bump"`: `pushBump` into the store and `io.emit` — deliver to every
connected peer, the sender included. Returns the new state and the list of
(recipient, payload) deliveries. -/
def relayDispatch (st : RelayState) (peers : List String) (sender : String)
    (ev : String) (m : WireMsg) : RelayState × List (String × WireMsg) :=
  if ev = "pos" then
    ({ st with livePositions := mapSet st.livePositions (deviceIdOf m) m },
      (peers.filter (fun p => p ≠ sender)).map (fun p => (p, m)))
  else if ev = "bump" then
    ({ st with bumps := pushBump st.bumps m },
      peers.map (fun p => (p, m)))
  else (st, [])

/-- The event names the relay's connection handler registers (backend
index.js lines 25 and 31). -/
def relayHandledEvents : List String := ["pos", "bump"]

/-- Event name under which the auto-tune frontend publishes a detected bump:
`socket.emit("send-bump", bump)` (part_000 line 243). -/
def part000BumpEmitEvent : String := "send-bump"

/-- Event name under which the baseline frontend publishes a detected bump:
`socket.emit("send-bump", bump)` (frontend App.js line 130). -/
def baselineBumpEmitEvent : String := "send-bump"

/-- Event name both frontends subscribe to for remote bumps:
`socket.on("new-bump", ...)` (part_000 line 118, frontend App.js line 58). -/
def frontendBumpSubscribeEvent : String := "new-bump"

/-! ## Helper lemmas -/

/-- Folding the relay's bump push over any publication sequence keeps exactly
the most recent 20,000 records (the suffix of the full sequence). -/
theorem pushBump_foldl {α : Type} (bs : List α) :
    bs.foldl pushBump [] = bs.drop (bs.length - 20000) := by
  induction bs using List.reverseRecOn with
  | nil => simp
  | append_singleton cs b ih =>
    rw [List.foldl_append, List.foldl_cons, List.foldl_nil, ih]
    by_cases h : cs.length < 20000
    · have hd : cs.length - 20000 = 0 := by omega
      rw [hd, List.drop_zero]
      have hc : ¬ 20000 < (cs ++ [b]).length := by
        rw [List.length_append, List.length_singleton]; omega
      have h2 : (cs ++ [b]).length - 20000 = 0 := by
        rw [List.length_append, List.length_singleton]; omega
      simp only [pushBump]
      rw [if_neg hc, h2, List.drop_zero]
    · push_neg at h
      have hlen : (cs.drop (cs.length - 20000)).length = 20000 := by
        rw [List.length_drop]; omega
      simp only [pushBump]
      have hc : 20000 < (cs.drop (cs.length - 20000) ++ [b]).length := by
        rw [List.length_append, hlen, List.length_singleton]; omega
      rw [if_pos hc]
      have h1 : (cs.drop (cs.length - 20000) ++ [b]).length - 20000 = 1 := by
        rw [List.length_append, hlen, List.length_singleton]
      rw [h1]
      rw [List.drop_append_of_le_length (by omega : 1 ≤ (cs.drop (cs.length - 20000)).length)]
      rw [List.drop_drop]
      have h3 : (cs ++ [b]).length - 20000 = (1 + (cs.length - 20000)) := by
        rw [List.length_append, List.length_singleton]; omega
      rw [h3, List.drop_append_of_le_length (by omega : 1 + (cs.length - 20000) ≤ cs.length)]
      have h4 : cs.length - 20000 + 1 = 1 + (cs.length - 20000) := by omega
      rw [h4]

/-! ## C3 — Auto-Tuner -/

/-- C3: the auto-tuner is a pure function of speed realising exactly the
four-bracket table (speed < 5 → (2500, 10); 5 ≤ speed < 25 → (1800, 12);
25 ≤ speed < 60 → (1200, 14); speed ≥ 60 → (800, 16)); for all s1 ≤ s2 the
sensitivity is non-decreasing and the cooldown non-increasing; and
tuning(4) = (2500,10), tuning(5) = (1800,12), tuning(24.9) = (1800,12),
tuning(60) = (800,16). -/
theorem autoTuner_bracket_table :
    (∀ s : ℚ, s < 5 → getAutoParams s = ⟨2500, 10⟩) ∧
    (∀ s : ℚ, 5 ≤ s → s < 25 → getAutoParams s = ⟨1800, 12⟩) ∧
    (∀ s : ℚ, 25 ≤ s → s < 60 → getAutoParams s = ⟨1200, 14⟩) ∧
    (∀ s : ℚ, 60 ≤ s → getAutoParams s = ⟨800, 16⟩) ∧
    (∀ s1 s2 : ℚ, s1 ≤ s2 →
      (getAutoParams s1).sensitivity ≤ (getAutoParams s2).sensitivity ∧
      (getAutoParams s2).cooldown ≤ (getAutoParams s1).cooldown) ∧
    getAutoParams 4 = ⟨2500, 10⟩ ∧ getAutoParams 5 = ⟨1800, 12⟩ ∧
    getAutoParams (249/10) = ⟨1800, 12⟩ ∧ getAutoParams 60 = ⟨800, 16⟩ := by
  refine ⟨?_, ?_, ?_, ?_, ?_, ?_, ?_, ?_, ?_⟩
  · intro s h1
    rw [getAutoParams, if_pos h1]
  · intro s h5 h25
    rw [getAutoParams, if_neg (by linarith), if_pos h25]
  · intro s h25 h60
    rw [getAutoParams, if_neg (by linarith), if_neg (by linarith), if_pos h60]
  · intro s h60
    rw [getAutoParams, if_neg (by linarith), if_neg (by linarith),
      if_neg (by linarith)]
  · intro s1 s2 hle
    unfold getAutoParams
    split_ifs
    all_goals try (exfalso; linarith)
    all_goals exact ⟨by norm_num, by norm_num⟩
  · norm_num [getAutoParams]
  · norm_num [getAutoParams]
  · norm_num [getAutoParams]
  · norm_num [getAutoParams]

/-- C3 witness: the table and monotonicity at concrete speeds. -/
theorem autoTuner_bracket_table_witness :
    getAutoParams 4 = ⟨2500, 10⟩ ∧ getAutoParams 60 = ⟨800, 16⟩ ∧
    ((getAutoParams 3).sensitivity ≤ (getAutoParams 70).sensitivity ∧
      (getAutoParams 70).cooldown ≤ (getAutoParams 3).cooldown) :=
  ⟨autoTuner_bracket_table.1 4 (by norm_num),
    autoTuner_bracket_table.2.2.2.1 60 (by norm_num),
    autoTuner_bracket_table.2.2.2.2.1 3 70 (by norm_num)⟩

/-! ## C9 — relay bump store bound and snapshot -/

/-- C9: after any sequence of bump publications the relay's store holds
exactly the most recent at-most-20,000 records (oldest evicted first), and the
`heat:init` snapshot is the most recent at-most-5,000 of the retained records
(a suffix of the store). -/
theorem relayStore_bound :
    (∀ (st : RelayState) (peers : List String) (sender : String) (m : WireMsg),
      ((relayDispatch st peers sender "bump" m).1).bumps = pushBump st.bumps m) ∧
    (∀ bs : List WireMsg,
      bs.foldl pushBump [] = bs.drop (bs.length - 20000) ∧
      (bs.foldl pushBump []).length ≤ 20000 ∧
      heatInit (bs.foldl pushBump []) =
        (bs.foldl pushBump []).drop ((bs.foldl pushBump []).length - 5000) ∧
      (heatInit (bs.foldl pushBump [])).length ≤ 5000 ∧
      ∃ t, t ++ heatInit (bs.foldl pushBump []) = bs.foldl pushBump []) := by
  constructor
  · intro st peers sender m
    simp [relayDispatch]
  · intro bs
    refine ⟨pushBump_foldl bs, ?_, rfl, ?_, ?_⟩
    · rw [pushBump_foldl bs, List.length_drop]
      omega
    · rw [heatInit, List.length_drop]
      omega
    · exact ⟨(bs.foldl pushBump []).take ((bs.foldl pushBump []).length - 5000),
        List.take_append_drop _ _⟩

/-! ## C10 — event-name mismatch between frontends and relay -/

/-- C10: the relay registers handlers only for `"pos"` and `"bump"`, while
both frontend variants publish detected bumps as `"send-bump"` (and subscribe
to `"new-bump"`); a `"send-bump"` publication therefore leaves the relay's
bump store and live-position map unchanged and is forwarded to nobody. -/
theorem sendBump_not_handled_by_relay :
    part000BumpEmitEvent = "send-bump" ∧
    baselineBumpEmitEvent = "send-bump" ∧
    frontendBumpSubscribeEvent = "new-bump" ∧
    part000BumpEmitEvent ∉ relayHandledEvents ∧
    baselineBumpEmitEvent ∉ relayHandledEvents ∧
    (∀ (st : RelayState) (peers : List String) (sender : String) (m : WireMsg),
      relayDispatch st peers sender part000BumpEmitEvent m = (st, [])) ∧
    (∀ (st : RelayState) (peers : List String) (sender : String) (m : WireMsg),
      relayDispatch st peers sender baselineBumpEmitEvent m = (st, [])) := by
  refine ⟨rfl, rfl, rfl, by decide, by decide, ?_, ?_⟩ <;>
    · intro st peers sender m
      simp [relayDispatch, part000BumpEmitEvent, baselineBumpEmitEvent]

/-! ## C6 — relay forwarding (corrected) -/

/-- C6 counterexample: the claim says the sender never receives its own
publication back, but the relay re-emits `"bump"` publications with `io.emit`,
which includes the sender: with connected peers A and B, a bump sent by A is
delivered back to A. -/
theorem relayBump_echoes_to_sender :
    ("A", WireMsg.bumpMsg ⟨"A", 0, 0, 0, 0⟩) ∈
      (relayDispatch relayInit ["A", "B"] "A" "bump"
        (WireMsg.bumpMsg ⟨"A", 0, 0, 0, 0⟩)).2 := by
  simp [relayDispatch]

/-- C6 amended: a `"pos"` publication is forwarded to every connected peer
except the sender (the sender gets nothing back), while a `"bump"` publication
is forwarded to every connected peer, the sender included. -/
theorem relayForwarding :
    (∀ (st : RelayState) (peers : List String) (sender : String) (m : WireMsg),
      (relayDispatch st peers sender "pos" m).2 =
        (peers.filter (fun p => p ≠ sender)).map (fun p => (p, m)) ∧
      sender ∉ ((relayDispatch st peers sender "pos" m).2.map (fun e => e.1))) ∧
    (∀ (st : RelayState) (peers : List String) (sender : String) (m : WireMsg),
      (relayDispatch st peers sender "bump" m).2 = peers.map (fun p => (p, m)) ∧
      ((relayDispatch st peers sender "bump" m).2.map (fun e => e.1)) = peers) := by
  constructor
  · intro st peers sender m
    constructor
    · simp [relayDispatch]
    · simp [relayDispatch, Function.comp_def]
  · intro st peers sender m
    constructor
    · simp [relayDispatch]
    · simp [relayDispatch, Function.comp_def]

/-! ## C1 — Bump Classifier gate (corrected) -/

/-- C1 counterexample: the claim's Armed condition uses `now − lastFire ≥
cooldown`, but the code's gate is strictly greater. At the boundary (elapsed
exactly equal to the cooldown, metric above threshold) the claim predicts an
event and the code produces none. Moreover, at the literal times
[0, 100, 200, 2000] with the code's zero-initialised last-fire timestamp, the
sample at t = 100 is still inside the initial cooldown window, so the fired
flags are [false, false, false, true], not [false, true, false, true]. -/
theorem bumpClassifierGate_counterexample :
    ((15 : ℚ) < 20 ∧ (1800 : ℚ) ≤ ((1800 - 0 : ℤ) : ℚ) ∧
      (classifyStep 15 1800 0 20 1800).2 = false) ∧
    runFlags 15 1800 0 [(5, 0), (20, 100), (3, 200), (22, 2000)] =
      [false, false, false, true] := by
  refine ⟨⟨by norm_num, by norm_num, ?_⟩, ?_⟩
  · norm_num [classifyStep]
  · norm_num [runFlags, classifyStep]

/-- C1 amended: the classifier fires exactly when the metric strictly exceeds
the sensitivity threshold and the elapsed time since the last fire strictly
exceeds the cooldown (`now − lastFire > cooldownMs`); while the elapsed time
is at most the cooldown no event is produced regardless of metric magnitude.
For the metric sequence [5, 20, 3, 22] at times [T, T+100, T+200, T+2000]
(any epoch offset T with T > 1800, as holds for a real epoch-millisecond
clock against the zero-initialised last-fire timestamp), events fire exactly
at the 2nd sample and at the 4th sample (elapsed 1900 > 1800); the 3rd sample
(metric 3) never fires. -/
theorem bumpClassifierGate :
    (∀ (s c : ℚ) (lb : ℤ) (m : ℚ) (now : ℤ),
      (classifyStep s c lb m now).2 = true ↔
        s < m ∧ c < ((now - lb : ℤ) : ℚ)) ∧
    (∀ (s c : ℚ) (lb : ℤ) (m : ℚ) (now : ℤ),
      ((now - lb : ℤ) : ℚ) ≤ c → (classifyStep s c lb m now).2 = false) ∧
    (∀ T : ℤ, 1800 < T →
      runFlags 15 1800 0 [(5, T), (20, T + 100), (3, T + 200), (22, T + 2000)] =
        [false, true, false, true]) := by
  refine ⟨?_, ?_, ?_⟩
  · intro s c lb m now
    simp only [classifyStep]
    split_ifs with h
    · exact iff_of_true rfl h
    · exact iff_of_false (by simp) h
  · intro s c lb m now hle
    simp only [classifyStep]
    rw [if_neg]
    rintro ⟨-, hc⟩
    linarith
  · intro T hT
    have hT2 : (1800 : ℚ) < ((T : ℤ) : ℚ) := by exact_mod_cast hT
    simp only [runFlags, List.foldl_cons, List.foldl_nil, classifyStep]
    norm_num
    split_ifs with h1 h2 h3
    all_goals try (constructor <;> rfl)
    all_goals (exfalso; try push_cast at *; linarith)

/-- C1 witness: the amended theorem at concrete inputs — no event at the
exact cooldown boundary, and the fired flags for the example sequence at
epoch offset T = 2000. -/
theorem bumpClassifierGate_witness :
    (classifyStep 15 1800 0 20 1800).2 = false ∧
    runFlags 15 1800 0 [(5, 2000), (20, 2000 + 100), (3, 2000 + 200), (22, 2000 + 2000)] =
      [false, true, false, true] :=
  ⟨bumpClassifierGate.2.1 15 1800 0 20 1800 (by norm_num),
    bumpClassifierGate.2.2 2000 (by norm_num)⟩

/-! ## C4 — Path invariants -/

/-- Appending a fresh point to a duplicate-free path keeps it
duplicate-free. -/
theorem chain_append_single (prev : List (ℚ × ℚ)) (next : ℚ × ℚ)
    (h : List.Chain' (fun a b => a ≠ b) prev)
    (h1 : prev.getLast? ≠ some next) :
    List.Chain' (fun a b => a ≠ b) (prev ++ [next]) := by
  refine List.chain'_append.mpr ⟨h, List.chain'_singleton next, ?_⟩
  intro x hx y hy
  rw [Option.mem_def] at hx
  simp only [List.head?_cons, Option.mem_def, Option.some.injEq] at hy
  subst hy
  intro hxy
  exact h1 (hxy ▸ hx)

/-- After `pathAppend`, the last stored point is always the point just fed. -/
theorem pathAppend_getLast (prev : List (ℚ × ℚ)) (next : ℚ × ℚ) :
    (pathAppend prev next).getLast? = some next := by
  simp only [pathAppend]
  split_ifs with h1 h2
  · cases prev with
    | nil => simp at h2
    | cons a l =>
      rw [List.cons_append, List.tail_cons]
      exact List.getLast?_concat _
  · exact List.getLast?_concat _
  · push_neg at h1
    exact h1

/-- `pathAppend` keeps the path within the 10,000-point cap. -/
theorem pathAppend_length (prev : List (ℚ × ℚ)) (next : ℚ × ℚ)
    (h : prev.length ≤ 10000) : (pathAppend prev next).length ≤ 10000 := by
  simp only [pathAppend]
  split_ifs with h1 h2
  · simp only [List.length_tail, List.length_append, List.length_singleton]
    omega
  · simp only [List.length_append, List.length_singleton] at h2 ⊢
    omega
  · exact h

/-- `pathAppend` keeps the path free of two consecutive identical points. -/
theorem pathAppend_chain (prev : List (ℚ × ℚ)) (next : ℚ × ℚ)
    (h : List.Chain' (fun a b => a ≠ b) prev) :
    List.Chain' (fun a b => a ≠ b) (pathAppend prev next) := by
  simp only [pathAppend]
  split_ifs with h1 h2
  · exact (chain_append_single prev next h h1).tail
  · exact chain_append_single prev next h h1
  · exact h

/-- The path component of `handlePos` is exactly `pathAppend`. -/
theorem handlePos_path (st : GeoState) (f : RawFix) :
    (handlePos st f).path = pathAppend st.path (f.lat, f.lon) := rfl

/-- The path invariant (capacity and no consecutive duplicates) is preserved
by folding `handlePos` over any fix sequence. -/
theorem geoFold_invariant (fixes : List RawFix) :
    ∀ st : GeoState, st.path.length ≤ 10000 →
      List.Chain' (fun a b => a ≠ b) st.path →
      ((fixes.foldl handlePos st).path.length ≤ 10000 ∧
        List.Chain' (fun a b => a ≠ b) (fixes.foldl handlePos st).path) := by
  induction fixes with
  | nil => intro st h1 h2; exact ⟨h1, h2⟩
  | cons f fs ih =>
    intro st h1 h2
    rw [List.foldl_cons]
    exact ih (handlePos st f)
      (by rw [handlePos_path]; exact pathAppend_length _ _ h1)
      (by rw [handlePos_path]; exact pathAppend_chain _ _ h2)

/-- C4: over every sequence of position fixes from the initial state, the
Path never exceeds 10,000 points and never contains two consecutive identical
points; and feeding the same fix twice in immediate succession leaves the
path unchanged the second time (dedup by exact coordinate equality). -/
theorem path_capped_and_dedup :
    (∀ fixes : List RawFix,
      (fixes.foldl handlePos geoInit).path.length ≤ 10000 ∧
      List.Chain' (fun a b => a ≠ b) (fixes.foldl handlePos geoInit).path) ∧
    (∀ (st : GeoState) (f : RawFix),
      (handlePos (handlePos st f) f).path = (handlePos st f).path) := by
  constructor
  · intro fixes
    exact geoFold_invariant fixes geoInit (by simp [geoInit]) (by simp [geoInit])
  · intro st f
    rw [handlePos_path, handlePos_path, pathAppend]
    rw [if_neg (fun hne => hne (pathAppend_getLast st.path (f.lat, f.lon)))]

/-! ## C2 — derived speed -/

/-- The haversine distance from a point to itself is zero. -/
theorem haversineMeters_self (a b : ℝ) : haversineMeters a b a b = 0 := by
  simp [haversineMeters]

/-- C2: when a fix carries no non-negative native speed and the elapsed time
since the previous fix (in seconds) lies strictly in (0.5, 15), the new speed
equals haversine distance / elapsed time, converted to km/h (× 3.6) and
clamped to [0, 180]; outside the window the speed state is unchanged; in both
cases the fix is still recorded as the latest fix. -/
theorem speedDerivation (st : GeoState) (f : RawFix) (plat plon : ℚ) (pt : ℤ)
    (hns : nativeSpeed f.speed = none)
    (hlast : st.lastGeo = some (plat, plon, pt)) :
    ((1/2 < ((f.ts - pt : ℤ) : ℚ) / 1000 ∧ ((f.ts - pt : ℤ) : ℚ) / 1000 < 15 →
        (handlePos st f).speedKmh =
          max 0 (min 180
            (haversineMeters (plat : ℝ) (plon : ℝ) (f.lat : ℝ) (f.lon : ℝ) /
              ((((f.ts - pt : ℤ) : ℚ) / 1000 : ℚ) : ℝ) * 3.6))) ∧
      (¬ (1/2 < ((f.ts - pt : ℤ) : ℚ) / 1000 ∧ ((f.ts - pt : ℤ) : ℚ) / 1000 < 15) →
        (handlePos st f).speedKmh = st.speedKmh)) ∧
    (handlePos st f).lastGeo = some (f.lat, f.lon, f.ts) ∧
    (handlePos st f).position = (f.lat, f.lon) := by
  refine ⟨⟨?_, ?_⟩, rfl, rfl⟩
  · intro hw
    simp only [handlePos, hns, hlast]
    rw [if_pos hw]
  · intro hw
    simp only [handlePos, hns, hlast]
    rw [if_neg hw]

/-- C2 witness: a fix with no native speed, 1 s after a previous fix at the
same coordinates, derives speed clamp(0 / 1 × 3.6) = 0 and still updates the
latest-fix state. -/
theorem speedDerivation_witness :
    (handlePos ⟨(0, 0), 5, [], some (0, 0, 0)⟩ ⟨0, 0, none, 1000⟩).speedKmh = 0 ∧
    (handlePos ⟨(0, 0), 5, [], some (0, 0, 0)⟩ ⟨0, 0, none, 1000⟩).lastGeo =
      some (0, 0, 1000) := by
  have h := speedDerivation ⟨(0, 0), 5, [], some (0, 0, 0)⟩ ⟨0, 0, none, 1000⟩
    0 0 0 rfl rfl
  refine ⟨?_, h.2.1⟩
  have hw := h.1.1 (by norm_num)
  rw [hw, haversineMeters_self]
  norm_num [min_def, max_def]

/-! ## C8 — jerk-based signal conditioner -/

/-- C8: each axis of the high-pass state is updated as
`hp = 0.8 · (hp + sample − previousRaw)`; the reported metric is the
Euclidean norm of the discrete derivative of the filtered vector over the
elapsed time (seconds); when the elapsed time is non-positive every axis's
jerk contribution is zero and the metric is zero. -/
theorem jerkConditioner (st : MotionState) (ax ay az t : ℝ) :
    ((onMotionCond st ax ay az t).1.hp =
      (0.8 * (st.hp.1 + ax - st.recent.1),
        0.8 * (st.hp.2.1 + ay - st.recent.2.1),
        0.8 * (st.hp.2.2 + az - st.recent.2.2))) ∧
    ((onMotionCond st ax ay az t).1.recent = (ax, ay, az)) ∧
    (t - st.prevT ≤ 0 → (onMotionCond st ax ay az t).2 = 0) ∧
    (0 < t - st.prevT →
      (onMotionCond st ax ay az t).2 =
        Real.sqrt
          ((0.8 * (st.hp.1 + ax - st.recent.1) - st.prevF.1) / ((t - st.prevT) / 1000) *
              ((0.8 * (st.hp.1 + ax - st.recent.1) - st.prevF.1) / ((t - st.prevT) / 1000)) +
            (0.8 * (st.hp.2.1 + ay - st.recent.2.1) - st.prevF.2.1) / ((t - st.prevT) / 1000) *
              ((0.8 * (st.hp.2.1 + ay - st.recent.2.1) - st.prevF.2.1) / ((t - st.prevT) / 1000)) +
            (0.8 * (st.hp.2.2 + az - st.recent.2.2) - st.prevF.2.2) / ((t - st.prevT) / 1000) *
              ((0.8 * (st.hp.2.2 + az - st.recent.2.2) - st.prevF.2.2) / ((t - st.prevT) / 1000)))) := by
  refine ⟨rfl, rfl, ?_, ?_⟩
  · intro h
    have hdt : ¬ (0 < (t - st.prevT) / 1000) := by
      intro hc
      rw [div_pos_iff] at hc
      rcases hc with ⟨h1, -⟩ | ⟨-, h2⟩
      · linarith
      · linarith
    simp only [onMotionCond]
    rw [if_neg hdt, if_neg hdt, if_neg hdt]
    norm_num
  · intro h
    have hdt : 0 < (t - st.prevT) / 1000 := by positivity
    simp only [onMotionCond]
    rw [if_pos hdt, if_pos hdt, if_pos hdt]

/-- C8 witness: from the all-zero state, a sample at the same timestamp
(elapsed time 0) yields metric 0; a sample 1000 ms later yields the norm of
the discrete derivative. -/
theorem jerkConditioner_witness :
    (onMotionCond ⟨(0, 0, 0), (0, 0, 0), (0, 0, 0), 0⟩ 0 0 0 0).2 = 0 ∧
    (onMotionCond ⟨(0, 0, 0), (0, 0, 0), (0, 0, 0), 0⟩ 0 0 0 1000).2 =
      Real.sqrt
        ((0.8 * ((0 : ℝ) + 0 - 0) - 0) / (((1000 : ℝ) - 0) / 1000) *
            ((0.8 * ((0 : ℝ) + 0 - 0) - 0) / (((1000 : ℝ) - 0) / 1000)) +
          (0.8 * ((0 : ℝ) + 0 - 0) - 0) / (((1000 : ℝ) - 0) / 1000) *
            ((0.8 * ((0 : ℝ) + 0 - 0) - 0) / (((1000 : ℝ) - 0) / 1000)) +
          (0.8 * ((0 : ℝ) + 0 - 0) - 0) / (((1000 : ℝ) - 0) / 1000) *
            ((0.8 * ((0 : ℝ) + 0 - 0) - 0) / (((1000 : ℝ) - 0) / 1000))) :=
  ⟨(jerkConditioner ⟨(0, 0, 0), (0, 0, 0), (0, 0, 0), 0⟩ 0 0 0 0).2.2.1 (by norm_num),
    (jerkConditioner ⟨(0, 0, 0), (0, 0, 0), (0, 0, 0), 0⟩ 0 0 0 1000).2.2.2 (by norm_num)⟩

/-! ## C5 — Segment Correlator -/

/-- The walk at index 0 returns its accumulators unchanged. -/
theorem segWalkGo_zero (path : List (ℚ × ℚ)) (seg : List (ℚ × ℚ)) (acc : ℝ) :
    segWalkGo path 0 seg acc = (seg, acc) := rfl

/-- One unfolding of the backward walk at a positive index. -/
theorem segWalkGo_succ (path : List (ℚ × ℚ)) (i : ℕ) (seg : List (ℚ × ℚ))
    (acc : ℝ) :
    segWalkGo path (i + 1) seg acc =
      if 30 ≤ acc + stepDist path i then
        (path.getD (i + 1) (0, 0) :: seg, acc + stepDist path i)
      else
        segWalkGo path i (path.getD (i + 1) (0, 0) :: seg)
          (acc + stepDist path i) := rfl

/-- Taking one element of a dropped list yields the indexed element. -/
theorem drop_take_one (l : List (ℚ × ℚ)) (k : ℕ) (hk : k < l.length) :
    (l.drop k).take 1 = [l.getD k (0, 0)] := by
  rw [List.drop_eq_getElem_cons hk, List.take_succ_cons, List.take_zero,
    List.getD_eq_getElem l (0, 0) hk]

/-- Extending a contiguous window of a dropped list by its next element. -/
theorem drop_take_snoc (l : List (ℚ × ℚ)) (j m : ℕ) (h : j + m < l.length) :
    (l.drop j).take m ++ [l.getD (j + m) (0, 0)] = (l.drop j).take (m + 1) := by
  rw [List.take_succ]
  congr 1
  rw [List.getElem?_drop, List.getElem?_eq_getElem h,
    List.getD_eq_getElem l (0, 0) h]
  rfl

/-- Structure of the backward walk: starting at index `i + 1` (within the
path) the walk stops at some index `j ≥ 1`, the built segment is exactly the
contiguous window `path[j..i+1]` prepended to the seed, and either the
accumulated distance reached 30 m or the walk reached the path start. -/
theorem segWalkGo_spec (path : List (ℚ × ℚ)) (i : ℕ) :
    ∀ (seg : List (ℚ × ℚ)) (acc : ℝ), i + 1 < path.length →
      ∃ j, 1 ≤ j ∧ j ≤ i + 1 ∧
        (segWalkGo path (i + 1) seg acc).1 =
          (path.drop j).take (i + 2 - j) ++ seg ∧
        (30 ≤ (segWalkGo path (i + 1) seg acc).2 ∨ j = 1) := by
  induction i with
  | zero =>
    intro seg acc h
    refine ⟨1, le_refl 1, le_refl 1, ?_, Or.inr rfl⟩
    have h1 : (path.drop 1).take (0 + 2 - 1) = [path.getD 1 (0, 0)] := by
      have he : 0 + 2 - 1 = 1 := by norm_num
      rw [he]
      exact drop_take_one path 1 (by omega)
    rw [segWalkGo_succ, segWalkGo_zero, h1]
    split_ifs <;> simp
  | succ i ih =>
    intro seg acc h
    rw [segWalkGo_succ]
    split_ifs with hb
    · refine ⟨i + 1 + 1, by omega, le_refl _, ?_, Or.inl hb⟩
      have h1 : (path.drop (i + 1 + 1)).take (i + 1 + 2 - (i + 1 + 1)) =
          [path.getD (i + 1 + 1) (0, 0)] := by
        have he : i + 1 + 2 - (i + 1 + 1) = 1 := by omega
        rw [he]
        exact drop_take_one path (i + 1 + 1) h
      rw [h1]
      simp
    · obtain ⟨j, hj1, hj2, hseg, hdisj⟩ :=
        ih (path.getD (i + 1 + 1) (0, 0) :: seg) (acc + stepDist path (i + 1))
          (by omega)
      refine ⟨j, hj1, by omega, ?_, hdisj⟩
      rw [hseg]
      have hm : j + (i + 2 - j) = i + 1 + 1 := by omega
      have hs := drop_take_snoc path j (i + 2 - j) (by omega)
      rw [hm] at hs
      have ht : i + 2 - j + 1 = i + 1 + 2 - j := by omega
      rw [ht] at hs
      rw [← hs, List.append_assoc]
      simp

/-- C5: with fewer than two path points no segment is produced; with at least
two, the correlator appends exactly one segment, which is the contiguous
suffix of the path from some stop index `j ≥ 1` with the event location
appended as terminal point — its last point is the event location, its first
point is the farthest-back path point reached — and either the accumulated
backtracked haversine distance reached 30 m or the walk reached the path
start (`j = 1`, the full walkable path). -/
theorem segmentCorrelator (path : List (ℚ × ℚ)) (center : ℚ × ℚ)
    (segs : List (List (ℚ × ℚ))) :
    (path.length < 2 → addRedSegmentNear path center segs = segs) ∧
    (2 ≤ path.length →
      ∃ j, 1 ≤ j ∧ j < path.length ∧
        addRedSegmentNear path center segs =
          segs ++ [path.drop j ++ [center]] ∧
        (path.drop j ++ [center]).getLast? = some center ∧
        (path.drop j ++ [center]).head? = some (path.getD j (0, 0)) ∧
        (30 ≤ (segWalkGo path (path.length - 1) [center] 0).2 ∨ j = 1)) := by
  constructor
  · intro h
    rw [addRedSegmentNear, if_pos h]
  · intro h
    obtain ⟨j, hj1, hj2, hseg, hdisj⟩ :=
      segWalkGo_spec path (path.length - 2) [center] 0 (by omega)
    have hl : path.length - 2 + 1 = path.length - 1 := by omega
    rw [hl] at hseg hdisj
    have htake : (path.drop j).take (path.length - 2 + 2 - j) = path.drop j := by
      apply List.take_of_length_le
      rw [List.length_drop]
      omega
    rw [htake] at hseg
    refine ⟨j, hj1, by omega, ?_, List.getLast?_concat _, ?_, hdisj⟩
    · simp only [addRedSegmentNear]
      rw [if_neg (by omega), hseg]
      rw [if_pos]
      rw [List.length_append, List.length_drop, List.length_singleton]
      omega
    · rw [List.drop_eq_getElem_cons (by omega : j < path.length),
        List.cons_append, List.head?_cons,
        List.getD_eq_getElem path (0, 0) (by omega : j < path.length)]

/-- C5 witness: a two-point path with a strong event at its newest point —
the correlator appends the segment [path[1], event] and reaches the path
start. -/
theorem segmentCorrelator_witness :
    ∃ j, 1 ≤ j ∧ j < ([((0 : ℚ), (0 : ℚ)), (0, 0)] : List (ℚ × ℚ)).length ∧
      addRedSegmentNear [((0 : ℚ), (0 : ℚ)), (0, 0)] (0, 0) [] =
        [] ++ [([((0 : ℚ), (0 : ℚ)), (0, 0)] : List (ℚ × ℚ)).drop j ++ [(0, 0)]] ∧
      (([((0 : ℚ), (0 : ℚ)), (0, 0)] : List (ℚ × ℚ)).drop j ++ [(0, 0)]).getLast? =
        some (0, 0) ∧
      (([((0 : ℚ), (0 : ℚ)), (0, 0)] : List (ℚ × ℚ)).drop j ++ [(0, 0)]).head? =
        some ([((0 : ℚ), (0 : ℚ)), (0, 0)].getD j (0, 0)) ∧
      (30 ≤ (segWalkGo [((0 : ℚ), (0 : ℚ)), (0, 0)]
          (([((0 : ℚ), (0 : ℚ)), (0, 0)] : List (ℚ × ℚ)).length - 1) [(0, 0)] 0).2 ∨
        j = 1) :=
  (segmentCorrelator [((0 : ℚ), (0 : ℚ)), (0, 0)] (0, 0) []).2 (by norm_num)

/-! ## C7 — high-severity threshold and red segments -/

/-- The correlator only ever appends to the segment list. -/
theorem addRedSegmentNear_growth (path : List (ℚ × ℚ)) (center : ℚ × ℚ)
    (segs : List (List (ℚ × ℚ))) :
    ∃ t, addRedSegmentNear path center segs = segs ++ t := by
  simp only [addRedSegmentNear]
  split_ifs
  · exact ⟨[], by simp⟩
  · exact ⟨_, rfl⟩
  · exact ⟨[], by simp⟩

/-- Evaluation of the correlator on the degenerate two-point path used by the
concrete C7 inputs (both points identical, so the walk accumulates 0 m and
reaches the path start). -/
theorem addRedSegmentNear_dup :
    addRedSegmentNear [((0 : ℚ), (0 : ℚ)), (0, 0)] (0, 0) [] =
      [[(0, 0), (0, 0)]] := by
  have hsd : stepDist [((0 : ℚ), (0 : ℚ)), (0, 0)] 0 = 0 := by
    simp only [stepDist]
    norm_num
    exact haversineMeters_self 0 0
  simp only [addRedSegmentNear]
  rw [if_neg (by norm_num)]
  have hL : ([((0 : ℚ), (0 : ℚ)), (0, 0)] : List (ℚ × ℚ)).length - 1 = 0 + 1 := by
    norm_num
  rw [hL, segWalkGo_succ, segWalkGo_zero, hsd]
  rw [if_neg (show ¬ ((30 : ℝ) ≤ 0 + 0) by norm_num)]
  norm_num

/-- The conditioned metric of the concrete sample x = 25.81, y = z = 0:
`|‖(25.81, 0, 0)‖ − 9.81| = 16`. -/
theorem linear_eval :
    |Real.sqrt ((2581 / 100 : ℝ) * (2581 / 100) + 0 * 0 + 0 * 0) - 9.81| = 16 := by
  have hsqrt : Real.sqrt ((2581 / 100 : ℝ) * (2581 / 100) + 0 * 0 + 0 * 0) =
      2581 / 100 := by
    rw [show ((2581 / 100 : ℝ) * (2581 / 100) + 0 * 0 + 0 * 0) =
      (2581 / 100 : ℝ) * (2581 / 100) by ring]
    exact Real.sqrt_mul_self (by norm_num)
  rw [hsqrt, show (2581 / 100 : ℝ) - 9.81 = 16 by norm_num,
    abs_of_nonneg (by norm_num : (0 : ℝ) ≤ 16)]

/-- Evaluation of the part_000 handler on a fired sample whose metric equals
the high threshold exactly (sensitivity 10, so the high threshold is
max(16, 13) = 16, and the metric is 16): a red segment IS created. -/
theorem handler_highEval :
    (handler 10 1800 (0, 0) 0 [((0 : ℚ), (0 : ℚ)), (0, 0)] ⟨0, [], []⟩
      (2581 / 100) 0 0 5000).redSegments = [[(0, 0), (0, 0)]] := by
  simp only [handler]
  rw [linear_eval]
  split_ifs with h1 h2
  · exact addRedSegmentNear_dup
  · exfalso
    apply h2
    rw [highThresholdFor]
    rw [show (max 16 (10 + 3) : ℚ) = 16 by norm_num [max_def]]
    norm_num
  · exfalso
    refine h1 ⟨by norm_num, by norm_num⟩

/-- C7 counterexample: the claim says a highlighted segment is created only
when the metric strictly exceeds the high threshold, but the code's guard is
`linear >= highThreshold`: with sensitivity 10 (high threshold 16) and a
conditioned metric of exactly 16, a segment is created although the metric
does not exceed the threshold. -/
theorem highThreshold_counterexample :
    (handler 10 1800 (0, 0) 0 [((0 : ℚ), (0 : ℚ)), (0, 0)] ⟨0, [], []⟩
        (2581 / 100) 0 0 5000).redSegments ≠
      (⟨0, [], []⟩ : AppState).redSegments ∧
    |Real.sqrt ((2581 / 100 : ℝ) * (2581 / 100) + 0 * 0 + 0 * 0) - 9.81| =
      ((highThresholdFor 10 : ℚ) : ℝ) ∧
    ¬ (((highThresholdFor 10 : ℚ) : ℝ) <
        |Real.sqrt ((2581 / 100 : ℝ) * (2581 / 100) + 0 * 0 + 0 * 0) - 9.81|) := by
  have hh : ((highThresholdFor 10 : ℚ) : ℝ) = 16 := by
    rw [highThresholdFor, show (max 16 (10 + 3) : ℚ) = 16 by norm_num [max_def]]
    norm_num
  refine ⟨?_, ?_, ?_⟩
  · rw [handler_highEval]
    simp
  · rw [linear_eval, hh]
  · rw [linear_eval, hh]
    norm_num

/-- C7 amended: the high severity threshold equals max(16, sensitivity + 3)
and is always at least the firing sensitivity; the red-segment list only
grows; and whenever the handler changes the red-segment list, the sample
fired (metric above sensitivity, cooldown strictly elapsed) and its metric
was at least (≥, not strictly above) the high threshold. -/
theorem highThreshold_segments (s c : ℚ) (pos : ℚ × ℚ) (spd : ℚ)
    (path : List (ℚ × ℚ)) (st : AppState) (x y z : ℝ) (now : ℤ) :
    highThresholdFor s = max 16 (s + 3) ∧
    (∀ q : ℚ, q ≤ highThresholdFor q) ∧
    (∃ t, (handler s c pos spd path st x y z now).redSegments =
      st.redSegments ++ t) ∧
    ((handler s c pos spd path st x y z now).redSegments ≠ st.redSegments →
      ((s : ℝ) < |Real.sqrt (x * x + y * y + z * z) - 9.81| ∧
        c < ((now - st.lastBump : ℤ) : ℚ) ∧
        (highThresholdFor s : ℝ) ≤ |Real.sqrt (x * x + y * y + z * z) - 9.81|)) := by
  refine ⟨rfl, ?_, ?_, ?_⟩
  · intro q
    rw [highThresholdFor]
    exact le_trans (by linarith) (le_max_right 16 (q + 3))
  · simp only [handler]
    split_ifs with h1 h2
    · exact addRedSegmentNear_growth path pos st.redSegments
    · exact ⟨[], by simp⟩
    · exact ⟨[], by simp⟩
  · intro hne
    simp only [handler] at hne
    split_ifs at hne with h1 h2
    · exact ⟨h1.1, h1.2, h2⟩
    · exact absurd rfl hne
    · exact absurd rfl hne

/-- C7 witness: the amended only-if direction at the concrete fired sample of
metric 16 — the segment list changed, so the sample fired and its metric was
at least the high threshold. -/
theorem highThreshold_segments_witness :
    ((10 : ℚ) : ℝ) <
      |Real.sqrt ((2581 / 100 : ℝ) * (2581 / 100) + 0 * 0 + 0 * 0) - 9.81| ∧
    (1800 : ℚ) < ((5000 - 0 : ℤ) : ℚ) ∧
    ((highThresholdFor 10 : ℚ) : ℝ) ≤
      |Real.sqrt ((2581 / 100 : ℝ) * (2581 / 100) + 0 * 0 + 0 * 0) - 9.81| :=
  (highThreshold_segments 10 1800 (0, 0) 0 [((0 : ℚ), (0 : ℚ)), (0, 0)]
      ⟨0, [], []⟩ (2581 / 100) 0 0 5000).2.2.2
    (by rw [handler_highEval]; simp)
